import Mathlib

/-!
Shallow embedding of `src/main.rs` of `rust-ai-powered-cli-tools-example`:
an AI-powered CLI with one-shot commands (summarize / translate, and an
`ask` subcommand declared but handled only by the wildcard arm of the
active `main`) and an interactive chat loop that accumulates a transcript.

Modelling conventions:
  * Rust `String`s are Lean `String`s (a `String` is a list of `Char`).
  * `str::trim` is modelled by `AiCli.trim` (drop whitespace from both
    ends); only ASCII whitespace characters are enumerated, which covers
    every input relevant here (Rust also strips non-ASCII Unicode
    whitespace, which no claim exercises).
  * `eq_ignore_ascii_case` is modelled by `AiCli.eqIgnoreAsciiCase`
    (compare after ASCII lower-casing, exactly as Rust does byte-wise).
  * The HTTP exchange is one request / one response: the response carries
    its status, its body text (`res.text()`), and the result of
    `res.json::<ApiResponse>()` as an `Option ApiResponse` field standing
    for the external serde_json parser.  A failed `send()` is the
    `Except.error` case, carrying the reqwest error's display text.
  * Printing to the terminal is recorded as data (`printed`,
    `noticeShown`, `replyPrinted`); an `expect`/`?` that aborts the
    process is an explicit error outcome.
-/

deriving instance DecidableEq for Except

namespace AiCli

/-- The `role` field of a chat message; the repository only ever writes
`"user"` and `"assistant"`. -/
inductive Role
  | user
  | assistant
deriving DecidableEq, Repr

/-- One transcript entry, mirroring the `{ "role": …, "content": … }`
objects pushed onto `history` in the Chat branch. -/
structure Message where
  role : Role
  content : String
deriving DecidableEq, Repr

/-- Mirror of the Rust `Message` response struct (only `content` is
deserialized). -/
structure RespMessage where
  content : String
deriving DecidableEq, Repr

/-- Mirror of the Rust `Choice` response struct. -/
structure RespChoice where
  message : RespMessage
deriving DecidableEq, Repr

/-- Mirror of the Rust `ApiResponse` struct: `choices: Vec<Choice>`. -/
structure ApiResponse where
  choices : List RespChoice
deriving DecidableEq, Repr

/-- An HTTP response as the code observes it: `status` from
`res.status()`, `bodyText` from `res.text()`, and `parsed` standing for
the result of `res.json::<ApiResponse>()` on that body (`none` when serde
fails). -/
structure HttpResponse where
  status : Nat
  bodyText : String
  parsed : Option ApiResponse
deriving DecidableEq, Repr

/-- `StatusCode::is_success`: 2xx. -/
def statusIsSuccess (s : Nat) : Bool :=
  200 ≤ s && s < 300

/-- The ASCII whitespace characters removed by `str::trim` (space, tab,
newline, carriage return, vertical tab, form feed). -/
def isRustWS (c : Char) : Bool :=
  c == ' ' || c == '\t' || c == '\n' || c == '\r' || c == '\x0b' || c == '\x0c'

/-- `str::trim` on the character list: drop whitespace from the front,
then from the back. -/
def trimList (l : List Char) : List Char :=
  ((l.dropWhile isRustWS).reverse.dropWhile isRustWS).reverse

/-- `str::trim`. -/
def trim (s : String) : String :=
  ⟨trimList s.data⟩

/-- `u8::to_ascii_lowercase` lifted to a character. -/
def toAsciiLower (c : Char) : Char :=
  if 65 ≤ c.toNat ∧ c.toNat ≤ 90 then Char.ofNat (c.toNat + 32) else c

/-- `str::eq_ignore_ascii_case`. -/
def eqIgnoreAsciiCase (a b : String) : Bool :=
  a.data.map toAsciiLower == b.data.map toAsciiLower

/-- A request body as built by `serde_json::json!` in both the Chat
branch and `send_ai_request`: model, full message list, `max_tokens`
and `temperature` (the literal `0.7`, kept as the rational 7/10). -/
structure Payload where
  model : String
  messages : List Message
  maxTokens : Nat
  temperature : ℚ
deriving DecidableEq, Repr

/-- How one iteration of the chat loop can abort: the
`expect("AI_API_KEY not set")` panic, a `send()` error propagated by `?`,
or a `res.json()` parse error propagated by `?`.  Each of these leaves the
loop (and the process) rather than continuing it. -/
inductive ChatErr
  | missingKey
  | sendErr (detail : String)
  | parseErr
deriving DecidableEq, Repr

/-- Control outcome of one chat-loop iteration: `break` on "exit",
normal fall-through to the next iteration, or an abort via panic/`?`. -/
inductive ChatOutcome
  | terminated
  | looped
  | crashed (e : ChatErr)
deriving DecidableEq, Repr

/-- Everything observable about one chat-loop iteration: the control
outcome, the history after the iteration, the payload actually handed to
the transport (`none` when no request was sent), and the lines printed. -/
structure ChatStepOut where
  outcome : ChatOutcome
  history : List Message
  sentPayload : Option Payload
  printed : List String
deriving DecidableEq, Repr

/-- One iteration of the `loop` in the Chat branch of `main`
(src/main.rs lines 286–327).  `key` is the value of `AI_API_KEY` in the
environment; `resp` is what the transport returns if the request is
sent.  Mirrors the source order: read line, trim, compare to "exit",
push the user message, build the payload, fetch the key (`expect`),
send (`?`), parse (`?`), then print and push the assistant reply iff at
least one choice is present (no `else` branch: nothing is printed when
`choices` is empty). -/
def chatStep (model : String) (key : Option String) (history : List Message)
    (rawLine : String) (resp : Except String HttpResponse) : ChatStepOut :=
  let input := trim rawLine
  if eqIgnoreAsciiCase input "exit" then
    ⟨ChatOutcome.terminated, history, none, []⟩
  else
    let h1 := history ++ [⟨Role.user, input⟩]
    let payload : Payload := ⟨model, h1, 200, 7/10⟩
    match key with
    | none => ⟨ChatOutcome.crashed ChatErr.missingKey, h1, none, []⟩
    | some _ =>
      match resp with
      | Except.error e => ⟨ChatOutcome.crashed (ChatErr.sendErr e), h1, some payload, []⟩
      | Except.ok r =>
        match r.parsed with
        | none => ⟨ChatOutcome.crashed ChatErr.parseErr, h1, some payload, []⟩
        | some api =>
          match api.choices with
          | [] => ⟨ChatOutcome.looped, h1, some payload, []⟩
          | c :: _ =>
            ⟨ChatOutcome.looped, h1 ++ [⟨Role.assistant, c.message.content⟩],
              some payload, ["AI: " ++ c.message.content]⟩

/-- The chat loop run over a script of (input line, transport response)
pairs; `Except.error` is the loop aborting via panic/`?`, `Except.ok` is
a clean exit (the "exit" input, or the script running out). -/
def chatLoop (model : String) (key : Option String) :
    List Message → List (String × Except String HttpResponse) → Except ChatErr Unit
  | _, [] => Except.ok ()
  | hist, (line, resp) :: rest =>
    let out := chatStep model key hist line resp
    match out.outcome with
    | ChatOutcome.terminated => Except.ok ()
    | ChatOutcome.looped => chatLoop model key out.history rest
    | ChatOutcome.crashed e => Except.error e

/-- The error cases of `send_ai_request`: `CliError::MissingApiKey`,
`CliError::NetworkError(detail)`, `CliError::ApiError` (the code formats
status and body text into one string `"{status} - {body}"`; the model
keeps the pair), and the serde error propagated by `?` from
`res.json()`. -/
inductive OneShotErr
  | missingApiKey
  | networkError (detail : String)
  | apiError (status : Nat) (body : String)
  | parseFailure
deriving DecidableEq, Repr

/-- Everything observable about one call of `send_ai_request`: its
`Result`, the payload handed to the transport (`none` when no request
was sent), whether the "No response received from AI." notice was
printed, and the reply content printed on success. -/
structure OneShotOut where
  result : Except OneShotErr Unit
  sentPayload : Option Payload
  noticeShown : Bool
  replyPrinted : Option String
deriving DecidableEq, Repr

/-- `send_ai_request(user_input, task, model)` (src/main.rs lines
191–233).  Mirrors the source order: read `AI_API_KEY` (mapped to
`MissingApiKey`), build `full_prompt = task ++ "\n\n" ++ user_input`,
build the single-message payload with `max_tokens = 200` and
`temperature = 0.7`, send (mapped to `NetworkError`), check
`status.is_success()` (non-success returns `ApiError` with status and
`res.text()`), parse (`?`), then print either the first choice's content
or the "No response received" notice. -/
def sendAiRequest (userInput task model : String) (key : Option String)
    (resp : Except String HttpResponse) : OneShotOut :=
  match key with
  | none => ⟨Except.error OneShotErr.missingApiKey, none, false, none⟩
  | some _ =>
    let fullPrompt := task ++ "\n\n" ++ userInput
    let payload : Payload := ⟨model, [⟨Role.user, fullPrompt⟩], 200, 7/10⟩
    match resp with
    | Except.error e =>
      ⟨Except.error (OneShotErr.networkError e), some payload, false, none⟩
    | Except.ok r =>
      if statusIsSuccess r.status then
        match r.parsed with
        | none => ⟨Except.error OneShotErr.parseFailure, some payload, false, none⟩
        | some api =>
          match api.choices with
          | [] => ⟨Except.ok (), some payload, true, none⟩
          | c :: _ => ⟨Except.ok (), some payload, false, some c.message.content⟩
      else
        ⟨Except.error (OneShotErr.apiError r.status r.bodyText), some payload, false, none⟩

/-- `get_input_or_stdin`: the positional argument if present, otherwise
the whole of standard input, in both cases passed through unchanged. -/
def getInputOrStdin (opt : Option String) (stdinContent : String) : String :=
  match opt with
  | some text => text
  | none => stdinContent

/-- The parsed CLI subcommand (the `Commands` enum). -/
inductive Command
  | ask (prompt : Option String) (model : String) (maxTokens : Nat) (temperature : ℚ)
  | summarize (text : Option String)
  | translate (text : Option String) (toLang : String)
  | chat (model : String)
deriving DecidableEq, Repr

/-- An error escaping `main` (an `anyhow::Error` at the process
boundary), from a one-shot command or from the chat loop. -/
inductive MainError
  | oneShot (e : OneShotErr)
  | chatRun (e : ChatErr)
deriving DecidableEq, Repr

/-- The `match &cli.command` of the active `main` (src/main.rs lines
259–331).  `Summarize` and `Translate` collect input and call
`send_ai_request`, propagating its error with `?`; `Chat` runs the loop;
`Ask` is matched by the wildcard arm `_ => {}` and does nothing.  `resp`
is the transport response for the single one-shot request; `script`
feeds the chat loop. -/
def runCommand (cmd : Command) (key : Option String) (stdinContent : String)
    (resp : Except String HttpResponse)
    (script : List (String × Except String HttpResponse)) : Except MainError Unit :=
  match cmd with
  | Command.summarize text =>
    let inputText := getInputOrStdin text stdinContent
    let out := sendAiRequest inputText "Summarize the following text briefly:" "gpt-4o-mini"
      key resp
    match out.result with
    | Except.error e => Except.error (MainError.oneShot e)
    | Except.ok _ => Except.ok ()
  | Command.translate text toLang =>
    let inputText := getInputOrStdin text stdinContent
    let prompt := "Translate the following text into " ++ toLang ++ ":"
    let out := sendAiRequest inputText prompt "gpt-4o-mini" key resp
    match out.result with
    | Except.error e => Except.error (MainError.oneShot e)
    | Except.ok _ => Except.ok ()
  | Command.chat model =>
    match chatLoop model key [] script with
    | Except.error e => Except.error (MainError.chatRun e)
    | Except.ok _ => Except.ok ()
  | Command.ask _ _ _ _ => Except.ok ()

/-- The process exit status induced by `main`'s `anyhow::Result`: 0 on
`Ok`, 1 on `Err` (the Rust runtime prints `Error: …` and exits 1). -/
def exitCode (r : Except MainError Unit) : Nat :=
  match r with
  | Except.ok _ => 0
  | Except.error _ => 1

/-- Whether the Rust runtime prints a diagnostic for `main`'s result
(it does exactly when `main` returns `Err`). -/
def diagnosticPrinted (r : Except MainError Unit) : Bool :=
  match r with
  | Except.ok _ => false
  | Except.error _ => true

/-- The `role` string written into the outbound JSON for a message. -/
def Role.toStr : Role → String
  | Role.user => "user"
  | Role.assistant => "assistant"

/-- Reading a `role` string back. -/
def roleOfStr (s : String) : Option Role :=
  if s = "user" then some Role.user
  else if s = "assistant" then some Role.assistant
  else none

/-- Serializing a transcript to the outbound request format: the ordered
list of `role`/`content` pairs, as `json!({ "role": …, "content": … })`
produces for each entry. -/
def serializeMessages (t : List Message) : List (String × String) :=
  t.map (fun m => (m.role.toStr, m.content))

/-- Re-reading a list of `role`/`content` pairs as a transcript. -/
def readMessages : List (String × String) → Option (List Message)
  | [] => some []
  | p :: rest =>
    match roleOfStr p.1, readMessages rest with
    | some r, some t => some (⟨r, p.2⟩ :: t)
    | _, _ => none

/-- A character list with no leading and no trailing whitespace. -/
def noEdgeWS (l : List Char) : Bool :=
  (match l.head? with
   | none => true
   | some c => !(isRustWS c)) &&
  (match l.getLast? with
   | none => true
   | some c => !(isRustWS c))

end AiCli

namespace AiCli

/-- The first element surviving `dropWhile p` does not satisfy `p`. -/
theorem head?_dropWhile_false (p : Char → Bool) :
    ∀ (l : List Char) (c : Char), (l.dropWhile p).head? = some c → p c = false := by
  intro l
  induction l with
  | nil => intro c h; simp [List.dropWhile] at h
  | cons a l ih =>
    intro c h
    rw [List.dropWhile_cons] at h
    by_cases hpa : p a
    · rw [if_pos hpa] at h
      exact ih c h
    · rw [if_neg hpa] at h
      simp at h
      subst h
      exact Bool.eq_false_iff.mpr hpa

/-- `dropWhile` either empties the list or keeps its last element. -/
theorem getLast?_dropWhile (p : Char → Bool) :
    ∀ l : List Char, l.dropWhile p = [] ∨ (l.dropWhile p).getLast? = l.getLast? := by
  intro l
  induction l with
  | nil => exact Or.inl rfl
  | cons a l ih =>
    rw [List.dropWhile_cons]
    by_cases hpa : p a
    · rw [if_pos hpa]
      rcases ih with h | h
      · exact Or.inl h
      · cases l with
        | nil => exact Or.inl (by simp [List.dropWhile])
        | cons b m => exact Or.inr (by rw [h, List.getLast?_cons_cons])
    · rw [if_neg hpa]
      exact Or.inr rfl

/-- A trimmed character list has no whitespace at either end. -/
theorem noEdgeWS_trimList (l : List Char) : noEdgeWS (trimList l) = true := by
  have hhead : ∀ c, (trimList l).head? = some c → isRustWS c = false := by
    intro c hc
    rw [trimList, List.head?_reverse] at hc
    rcases getLast?_dropWhile isRustWS (l.dropWhile isRustWS).reverse with h | h
    · rw [h] at hc; simp at hc
    · rw [h, List.getLast?_reverse] at hc
      exact head?_dropWhile_false isRustWS l c hc
  have hlast : ∀ c, (trimList l).getLast? = some c → isRustWS c = false := by
    intro c hc
    rw [trimList, List.getLast?_reverse] at hc
    exact head?_dropWhile_false isRustWS _ c hc
  rw [noEdgeWS]
  cases hh : (trimList l).head? with
  | none =>
    cases hg : (trimList l).getLast? with
    | none => rfl
    | some c => simp [hlast c hg]
  | some c =>
    cases hg : (trimList l).getLast? with
    | none => simp [hhead c hh]
    | some d => simp [hhead c hh, hlast d hg]

/-- Reading back a serialized role succeeds and is the identity. -/
theorem roleOfStr_toStr (r : Role) : roleOfStr r.toStr = some r := by
  cases r <;> rfl

/-- Serialize-then-read is the identity on transcripts. -/
theorem readMessages_serializeMessages (t : List Message) :
    readMessages (serializeMessages t) = some t := by
  induction t with
  | nil => rfl
  | cons m t ih =>
    rw [serializeMessages, List.map_cons]
    rw [readMessages]
    have h1 : roleOfStr (m.role.toStr, m.content).1 = some m.role := roleOfStr_toStr m.role
    rw [h1]
    rw [show readMessages (List.map (fun m => (m.role.toStr, m.content)) t) = some t from ih]

end AiCli

namespace AiCli

/-- The history after one chat-loop iteration is the old history (exit),
the old history plus the trimmed user message (abort or empty choices),
or that plus one assistant message (success with a choice). -/
theorem chatStep_history_cases (model : String) (key : Option String)
    (hist : List Message) (line : String) (resp : Except String HttpResponse) :
    (chatStep model key hist line resp).history = hist
    ∨ (chatStep model key hist line resp).history = hist ++ [⟨Role.user, trim line⟩]
    ∨ ∃ c : String, (chatStep model key hist line resp).history
        = hist ++ [⟨Role.user, trim line⟩, ⟨Role.assistant, c⟩] := by
  by_cases hex : eqIgnoreAsciiCase (trim line) "exit" = true
  · left
    simp [chatStep, hex]
  · have hex' : eqIgnoreAsciiCase (trim line) "exit" = false := Bool.eq_false_iff.mpr hex
    cases key with
    | none =>
      right; left
      simp [chatStep, hex']
    | some k =>
      cases resp with
      | error e =>
        right; left
        simp [chatStep, hex']
      | ok r =>
        cases hp : r.parsed with
        | none =>
          right; left
          simp [chatStep, hex', hp]
        | some api =>
          cases hc : api.choices with
          | nil =>
            right; left
            simp [chatStep, hex', hp, hc]
          | cons c cs =>
            right; right
            exact ⟨c.message.content, by simp [chatStep, hex', hp, hc]⟩

end AiCli

namespace AiCli

/-- Claim C1: for every transcript and non-exit input, when the send
succeeds and the parsed response has at least one choice, the new
transcript is the old one with exactly the user message and the returned
assistant reply appended, in that order, so its length grows by 2. -/
theorem claim_C1 (model k : String) (hist : List Message) (line : String)
    (r : HttpResponse) (api : ApiResponse) (c : RespChoice) (cs : List RespChoice)
    (hne : eqIgnoreAsciiCase (trim line) "exit" = false)
    (hp : r.parsed = some api) (hc : api.choices = c :: cs) :
    (chatStep model (some k) hist line (Except.ok r)).history
      = hist ++ [⟨Role.user, trim line⟩, ⟨Role.assistant, c.message.content⟩]
    ∧ (chatStep model (some k) hist line (Except.ok r)).history.length
      = hist.length + 2 := by
  refine ⟨?_, ?_⟩ <;> simp [chatStep, hne, hp, hc]

/-- Claim C1 witness: a concrete successful turn appends exactly the
user message and the reply. -/
theorem claim_C1_witness :
    (chatStep "m" (some "k") [⟨Role.user, "a"⟩] "hello"
        (Except.ok ⟨200, "", some ⟨[⟨⟨"world"⟩⟩]⟩⟩)).history
      = [⟨Role.user, "a"⟩, ⟨Role.user, trim "hello"⟩, ⟨Role.assistant, "world"⟩]
    ∧ (chatStep "m" (some "k") [⟨Role.user, "a"⟩] "hello"
        (Except.ok ⟨200, "", some ⟨[⟨⟨"world"⟩⟩]⟩⟩)).history.length = 3 :=
  claim_C1 "m" "k" [⟨Role.user, "a"⟩] "hello" ⟨200, "", some ⟨[⟨⟨"world"⟩⟩]⟩⟩
    ⟨[⟨⟨"world"⟩⟩]⟩ ⟨⟨"world"⟩⟩ [] (by decide) rfl rfl

/-- Claim C2 counterexample: a non-success HTTP status is listed by the
claim as a Transport failure, but the chat branch never checks the
status: a 500 response whose body still parses with one choice yields a
transcript of length len(T) + 2 with an assistant entry appended, not
len(T) + 1. -/
theorem claim_C2_counterexample :
    statusIsSuccess 500 = false
    ∧ (chatStep "m" (some "k") [] "hi"
        (Except.ok ⟨500, "oops", some ⟨[⟨⟨"r"⟩⟩]⟩⟩)).history
      = [⟨Role.user, "hi"⟩, ⟨Role.assistant, "r"⟩]
    ∧ (chatStep "m" (some "k") [] "hi"
        (Except.ok ⟨500, "oops", some ⟨[⟨⟨"r"⟩⟩]⟩⟩)).outcome = ChatOutcome.looped := by
  decide

/-- Claim C2 amended: for the failures the chat branch actually has —
a failed send, or a response body that does not parse — the transcript
becomes len(T) + 1 with the user message retained and no assistant
entry, and the originating error is propagated unchanged; a non-success
status is not itself a failure there, since the status is never read. -/
theorem claim_C2 (model k : String) (hist : List Message) (line : String)
    (hne : eqIgnoreAsciiCase (trim line) "exit" = false) :
    (∀ e : String,
      (chatStep model (some k) hist line (Except.error e)).history
        = hist ++ [⟨Role.user, trim line⟩]
      ∧ (chatStep model (some k) hist line (Except.error e)).history.length
        = hist.length + 1
      ∧ (chatStep model (some k) hist line (Except.error e)).outcome
        = ChatOutcome.crashed (ChatErr.sendErr e))
    ∧ (∀ r : HttpResponse, r.parsed = none →
      (chatStep model (some k) hist line (Except.ok r)).history
        = hist ++ [⟨Role.user, trim line⟩]
      ∧ (chatStep model (some k) hist line (Except.ok r)).history.length
        = hist.length + 1
      ∧ (chatStep model (some k) hist line (Except.ok r)).outcome
        = ChatOutcome.crashed ChatErr.parseErr) := by
  constructor
  · intro e
    refine ⟨?_, ?_, ?_⟩ <;> simp [chatStep, hne]
  · intro r hp
    refine ⟨?_, ?_, ?_⟩ <;> simp [chatStep, hne, hp]

/-- Claim C2 witness: a concrete failed send and a concrete unparsable
body each retain the user message only. -/
theorem claim_C2_witness :
    ((chatStep "m" (some "k") [] "hi" (Except.error "boom")).history
        = [⟨Role.user, trim "hi"⟩]
      ∧ (chatStep "m" (some "k") [] "hi" (Except.error "boom")).history.length = 1
      ∧ (chatStep "m" (some "k") [] "hi" (Except.error "boom")).outcome
        = ChatOutcome.crashed (ChatErr.sendErr "boom"))
    ∧ ((chatStep "m" (some "k") [] "hi"
          (Except.ok ⟨502, "bad gateway", none⟩)).history = [⟨Role.user, trim "hi"⟩]
      ∧ (chatStep "m" (some "k") [] "hi"
          (Except.ok ⟨502, "bad gateway", none⟩)).history.length = 1
      ∧ (chatStep "m" (some "k") [] "hi"
          (Except.ok ⟨502, "bad gateway", none⟩)).outcome
        = ChatOutcome.crashed ChatErr.parseErr) :=
  ⟨(claim_C2 "m" "k" [] "hi" (by decide)).1 "boom",
   (claim_C2 "m" "k" [] "hi" (by decide)).2 ⟨502, "bad gateway", none⟩ rfl⟩

/-- Claim C3 (code bug): a failed send in the chat loop does not return
to awaiting input — the error escapes via question-mark propagation, the
rest of the script is never processed, and the process exits non-zero. -/
theorem claim_C3 :
    (chatStep "m" (some "k") [] "hi" (Except.error "connection refused")).outcome
      = ChatOutcome.crashed (ChatErr.sendErr "connection refused")
    ∧ chatLoop "m" (some "k") []
        [("hi", Except.error "connection refused"),
         ("next", Except.ok ⟨200, "", some ⟨[⟨⟨"r"⟩⟩]⟩⟩)]
      = Except.error (ChatErr.sendErr "connection refused")
    ∧ runCommand (Command.chat "m") (some "k") "" (Except.error "x")
        [("hi", Except.error "connection refused"),
         ("next", Except.ok ⟨200, "", some ⟨[⟨⟨"r"⟩⟩]⟩⟩)]
      = Except.error (MainError.chatRun (ChatErr.sendErr "connection refused"))
    ∧ exitCode (runCommand (Command.chat "m") (some "k") "" (Except.error "x")
        [("hi", Except.error "connection refused"),
         ("next", Except.ok ⟨200, "", some ⟨[⟨⟨"r"⟩⟩]⟩⟩)]) = 1 := by
  decide

/-- Claim C4 counterexample: in interactive mode a 401 response with
body "invalid_api_key" does not yield a RemoteError carrying status and
body — the chat branch never checks the status, the body fails to parse
as the response schema, and the resulting error aborts the loop, so the
session cannot accept the next input. -/
theorem claim_C4_counterexample :
    (chatStep "m" (some "k") [] "hi"
        (Except.ok ⟨401, "invalid_api_key", none⟩)).outcome
      = ChatOutcome.crashed ChatErr.parseErr
    ∧ chatLoop "m" (some "k") []
        [("hi", Except.ok ⟨401, "invalid_api_key", none⟩),
         ("next", Except.ok ⟨200, "", some ⟨[⟨⟨"r"⟩⟩]⟩⟩)]
      = Except.error ChatErr.parseErr := by
  decide

/-- Claim C4 amended: in the one-shot path a non-success status S with
body B yields the ApiError carrying S and B (the code formats them into
one diagnostic string); the interactive chat branch never inspects the
status and a 401 aborts the session instead. -/
theorem claim_C4 (input task model k : String) (r : HttpResponse)
    (hs : statusIsSuccess r.status = false) :
    (sendAiRequest input task model (some k) (Except.ok r)).result
      = Except.error (OneShotErr.apiError r.status r.bodyText) := by
  simp [sendAiRequest, hs]

/-- Claim C4 witness: status 401 with body "invalid_api_key" yields the
error carrying 401 and "invalid_api_key". -/
theorem claim_C4_witness :
    (sendAiRequest "q" "t" "m" (some "k")
        (Except.ok ⟨401, "invalid_api_key", none⟩)).result
      = Except.error (OneShotErr.apiError 401 "invalid_api_key") :=
  claim_C4 "q" "t" "m" "k" ⟨401, "invalid_api_key", none⟩ (by decide)

/-- Claim C5 counterexample: empty interactive input is not filtered —
it is appended to the transcript as a user message with empty content
and a request is sent for it. -/
theorem claim_C5_counterexample :
    (chatStep "m" (some "k") [] ""
        (Except.ok ⟨200, "", some ⟨[⟨⟨"r"⟩⟩]⟩⟩)).sentPayload
      = some ⟨"m", [⟨Role.user, ""⟩], 200, 7/10⟩
    ∧ (chatStep "m" (some "k") [] ""
        (Except.ok ⟨200, "", some ⟨[⟨⟨"r"⟩⟩]⟩⟩)).history
      = [⟨Role.user, ""⟩, ⟨Role.assistant, "r"⟩] :=
  ⟨rfl, rfl⟩

/-- Claim C5 amended: for every history and transport outcome, empty
interactive input is appended as a user message with empty content and
the request payload containing it is handed to the transport, so
transcript entries with empty content do occur. -/
theorem claim_C5 (model k : String) (hist : List Message)
    (resp : Except String HttpResponse) :
    (chatStep model (some k) hist "" resp).sentPayload
      = some ⟨model, hist ++ [⟨Role.user, ""⟩], 200, 7/10⟩ := by
  cases resp with
  | error e => simp [chatStep, show trim "" = "" from rfl, show eqIgnoreAsciiCase "" "exit" = false from by decide]
  | ok r =>
    cases hp : r.parsed with
    | none => simp [chatStep, hp, show trim "" = "" from rfl, show eqIgnoreAsciiCase "" "exit" = false from by decide]
    | some api =>
      cases hc : api.choices with
      | nil => simp [chatStep, hp, hc, show trim "" = "" from rfl, show eqIgnoreAsciiCase "" "exit" = false from by decide]
      | cons c cs => simp [chatStep, hp, hc, show trim "" = "" from rfl, show eqIgnoreAsciiCase "" "exit" = false from by decide]

/-- Claim C6 counterexample: in the interactive chat branch a success
response with zero choices prints nothing at all — there is no else arm,
so the user is not shown any "no response" notice. -/
theorem claim_C6_counterexample :
    (chatStep "m" (some "k") [] "hi" (Except.ok ⟨200, "", some ⟨[]⟩⟩)).printed = []
    ∧ (chatStep "m" (some "k") [] "hi" (Except.ok ⟨200, "", some ⟨[]⟩⟩)).outcome
      = ChatOutcome.looped
    ∧ (chatStep "m" (some "k") [] "hi" (Except.ok ⟨200, "", some ⟨[]⟩⟩)).history
      = [⟨Role.user, "hi"⟩] := by
  decide

/-- Claim C6 amended: a success-status body with zero choices is a soft
condition in both paths — no error and no assistant entry; the explicit
"No response received" notice is printed by the one-shot path only,
while the chat branch prints nothing and silently continues. -/
theorem claim_C6 (input task model k : String) (hist : List Message) (line : String)
    (r : HttpResponse)
    (hs : statusIsSuccess r.status = true) (hp : r.parsed = some ⟨[]⟩)
    (hne : eqIgnoreAsciiCase (trim line) "exit" = false) :
    (sendAiRequest input task model (some k) (Except.ok r)).result = Except.ok ()
    ∧ (sendAiRequest input task model (some k) (Except.ok r)).noticeShown = true
    ∧ (chatStep model (some k) hist line (Except.ok r)).outcome = ChatOutcome.looped
    ∧ (chatStep model (some k) hist line (Except.ok r)).history
      = hist ++ [⟨Role.user, trim line⟩]
    ∧ (chatStep model (some k) hist line (Except.ok r)).printed = [] := by
  refine ⟨?_, ?_, ?_, ?_, ?_⟩ <;> simp [sendAiRequest, chatStep, hs, hp, hne]

/-- Claim C6 witness: a concrete empty-choices success response. -/
theorem claim_C6_witness :
    (sendAiRequest "q" "t" "m" (some "k") (Except.ok ⟨200, "", some ⟨[]⟩⟩)).result
      = Except.ok ()
    ∧ (sendAiRequest "q" "t" "m" (some "k")
        (Except.ok ⟨200, "", some ⟨[]⟩⟩)).noticeShown = true
    ∧ (chatStep "m" (some "k") [] "hi" (Except.ok ⟨200, "", some ⟨[]⟩⟩)).outcome
      = ChatOutcome.looped
    ∧ (chatStep "m" (some "k") [] "hi" (Except.ok ⟨200, "", some ⟨[]⟩⟩)).history
      = [⟨Role.user, trim "hi"⟩]
    ∧ (chatStep "m" (some "k") [] "hi" (Except.ok ⟨200, "", some ⟨[]⟩⟩)).printed = [] :=
  claim_C6 "q" "t" "m" "k" [] "hi" ⟨200, "", some ⟨[]⟩⟩ (by decide) rfl (by decide)

/-- Claim C7: an input whose trimmed form case-insensitively equals
"exit" terminates the session with no request sent and the history
untouched; any other input (when the key is present) hands a payload to
the transport. -/
theorem claim_C7 (model : String) (key : Option String) (hist : List Message)
    (line : String) (resp : Except String HttpResponse) :
    (eqIgnoreAsciiCase (trim line) "exit" = true →
      (chatStep model key hist line resp).outcome = ChatOutcome.terminated
      ∧ (chatStep model key hist line resp).sentPayload = none
      ∧ (chatStep model key hist line resp).history = hist)
    ∧ (∀ k : String, key = some k → eqIgnoreAsciiCase (trim line) "exit" = false →
      (chatStep model key hist line resp).sentPayload.isSome = true) := by
  constructor
  · intro h
    refine ⟨?_, ?_, ?_⟩ <;> simp [chatStep, h]
  · intro k hk h
    subst hk
    cases resp with
    | error e => simp [chatStep, h]
    | ok r =>
      cases hp : r.parsed with
      | none => simp [chatStep, h, hp]
      | some api =>
        cases hc : api.choices with
        | nil => simp [chatStep, h, hp, hc]
        | cons c cs => simp [chatStep, h, hp, hc]

/-- Claim C7 witness: "Exit" terminates without a request; "hi" sends
one. -/
theorem claim_C7_witness :
    ((chatStep "m" (some "k") [] "Exit" (Except.error "x")).outcome
        = ChatOutcome.terminated
      ∧ (chatStep "m" (some "k") [] "Exit" (Except.error "x")).sentPayload = none
      ∧ (chatStep "m" (some "k") [] "Exit" (Except.error "x")).history = [])
    ∧ (chatStep "m" (some "k") [] "hi" (Except.error "x")).sentPayload.isSome = true :=
  ⟨(claim_C7 "m" (some "k") [] "Exit" (Except.error "x")).1 (by decide),
   (claim_C7 "m" (some "k") [] "hi" (Except.error "x")).2 "k" rfl (by decide)⟩

/-- Claim C8: on every non-exit turn the payload handed to the transport
carries the full transcript so far — every prior message plus the new
user message, in insertion order — and serializing a transcript to the
outbound role/content pairs and reading them back is the identity. -/
theorem claim_C8 (model k : String) (hist : List Message) (line : String)
    (resp : Except String HttpResponse)
    (hne : eqIgnoreAsciiCase (trim line) "exit" = false) :
    (chatStep model (some k) hist line resp).sentPayload
      = some ⟨model, hist ++ [⟨Role.user, trim line⟩], 200, 7/10⟩
    ∧ ∀ t : List Message, readMessages (serializeMessages t) = some t := by
  constructor
  · cases resp with
    | error e => simp [chatStep, hne]
    | ok r =>
      cases hp : r.parsed with
      | none => simp [chatStep, hne, hp]
      | some api =>
        cases hc : api.choices with
        | nil => simp [chatStep, hne, hp, hc]
        | cons c cs => simp [chatStep, hne, hp, hc]
  · exact readMessages_serializeMessages

/-- Claim C8 witness: a concrete turn's payload carries the whole
transcript, and the round-trip holds for it. -/
theorem claim_C8_witness :
    (chatStep "m" (some "k") [⟨Role.assistant, "y"⟩] "hi"
        (Except.error "x")).sentPayload
      = some ⟨"m", [⟨Role.assistant, "y"⟩] ++ [⟨Role.user, trim "hi"⟩], 200, 7/10⟩
    ∧ ∀ t : List Message, readMessages (serializeMessages t) = some t :=
  claim_C8 "m" "k" [⟨Role.assistant, "y"⟩] "hi" (Except.error "x") (by decide)

/-- Claim C9 counterexample: the ask subcommand is matched only by the
wildcard arm of the active main, so with the credential absent and a
transport that would fail it still does nothing and exits 0 with no
diagnostic, instead of propagating an error. -/
theorem claim_C9_counterexample :
    runCommand (Command.ask none "gpt-4o-mini" 150 (7/10)) none "q"
        (Except.error "net down") [] = Except.ok ()
    ∧ exitCode (runCommand (Command.ask none "gpt-4o-mini" 150 (7/10)) none "q"
        (Except.error "net down") []) = 0
    ∧ diagnosticPrinted (runCommand (Command.ask none "gpt-4o-mini" 150 (7/10)) none "q"
        (Except.error "net down") []) = false :=
  ⟨rfl, rfl, rfl⟩

/-- Claim C9 amended: for summarize and translate, every error of
send_ai_request (missing credential, network failure, remote error,
parse failure) propagates to the process boundary: main returns it, the
runtime prints a diagnostic, and the exit status is non-zero; ask is
handled by the wildcard arm and never errors. -/
theorem claim_C9 (text : Option String) (toLang stdin : String) (key : Option String)
    (resp : Except String HttpResponse) :
    (∀ e : OneShotErr,
      (sendAiRequest (getInputOrStdin text stdin)
          "Summarize the following text briefly:" "gpt-4o-mini" key resp).result
        = Except.error e →
      runCommand (Command.summarize text) key stdin resp []
        = Except.error (MainError.oneShot e)
      ∧ exitCode (runCommand (Command.summarize text) key stdin resp []) = 1
      ∧ diagnosticPrinted (runCommand (Command.summarize text) key stdin resp []) = true)
    ∧ (∀ e : OneShotErr,
      (sendAiRequest (getInputOrStdin text stdin)
          ("Translate the following text into " ++ toLang ++ ":") "gpt-4o-mini"
          key resp).result = Except.error e →
      runCommand (Command.translate text toLang) key stdin resp []
        = Except.error (MainError.oneShot e)
      ∧ exitCode (runCommand (Command.translate text toLang) key stdin resp []) = 1
      ∧ diagnosticPrinted (runCommand (Command.translate text toLang) key stdin resp [])
        = true) := by
  constructor
  · intro e he
    refine ⟨?_, ?_, ?_⟩ <;> simp [runCommand, he, exitCode, diagnosticPrinted]
  · intro e he
    refine ⟨?_, ?_, ?_⟩ <;> simp [runCommand, he, exitCode, diagnosticPrinted]

/-- Claim C9 witness: summarize with the credential absent exits 1 with
a diagnostic. -/
theorem claim_C9_witness :
    runCommand (Command.summarize (some "q")) none "" (Except.error "x") []
      = Except.error (MainError.oneShot OneShotErr.missingApiKey)
    ∧ exitCode (runCommand (Command.summarize (some "q")) none ""
        (Except.error "x") []) = 1
    ∧ diagnosticPrinted (runCommand (Command.summarize (some "q")) none ""
        (Except.error "x") []) = true :=
  (claim_C9 (some "q") "fr" "" none (Except.error "x")).1 OneShotErr.missingApiKey rfl

/-- Claim C10: interactive input is trimmed before the exit comparison
and before being stored ("  EXIT  " terminates the session; every user
message the step stores is the trimmed line, which has no leading or
trailing whitespace), while one-shot input from argument or stdin is
passed through untrimmed. -/
theorem claim_C10 (model : String) (key : Option String) (hist : List Message)
    (line s t : String) (resp resp2 : Except String HttpResponse) :
    (chatStep model key hist "  EXIT  " resp).outcome = ChatOutcome.terminated
    ∧ (∀ m : Message, m ∈ (chatStep model key hist line resp2).history →
        m ∈ hist ∨ m.role = Role.assistant
          ∨ (m.content = trim line ∧ noEdgeWS m.content.data = true))
    ∧ getInputOrStdin none s = s
    ∧ getInputOrStdin (some t) s = t := by
  refine ⟨?_, ?_, rfl, rfl⟩
  · simp [chatStep, show eqIgnoreAsciiCase (trim "  EXIT  ") "exit" = true from by decide]
  · intro m hm
    rcases chatStep_history_cases model key hist line resp2 with h | h | ⟨c, h⟩
    · rw [h] at hm
      exact Or.inl hm
    · rw [h] at hm
      rcases List.mem_append.mp hm with hm | hm
      · exact Or.inl hm
      · have hmeq : m = ⟨Role.user, trim line⟩ := by simpa using hm
        subst hmeq
        exact Or.inr (Or.inr ⟨rfl, noEdgeWS_trimList line.data⟩)
    · rw [h] at hm
      rcases List.mem_append.mp hm with hm | hm
      · exact Or.inl hm
      · rcases List.mem_cons.mp hm with hmeq | hm
        · subst hmeq
          exact Or.inr (Or.inr ⟨rfl, noEdgeWS_trimList line.data⟩)
        · have hmeq : m = ⟨Role.assistant, c⟩ := by simpa using hm
          subst hmeq
          exact Or.inr (Or.inl rfl)

/-- Claim C10 witness: "  EXIT  " terminates a concrete session, a
stored user message has no edge whitespace, and one-shot input passes
through untrimmed. -/
theorem claim_C10_witness :
    (chatStep "m" (some "k") [] "  EXIT  " (Except.error "x")).outcome
      = ChatOutcome.terminated
    ∧ ((⟨Role.user, "hi"⟩ : Message) ∈ ([] : List Message)
        ∨ (⟨Role.user, "hi"⟩ : Message).role = Role.assistant
        ∨ ((⟨Role.user, "hi"⟩ : Message).content = trim "hi"
            ∧ noEdgeWS (⟨Role.user, "hi"⟩ : Message).content.data = true))
    ∧ getInputOrStdin none "  raw  " = "  raw  "
    ∧ getInputOrStdin (some "arg") "  raw  " = "arg" :=
  ⟨(claim_C10 "m" (some "k") [] "hi" "  raw  " "arg" (Except.error "x")
      (Except.error "x")).1,
   (claim_C10 "m" (some "k") [] "hi" "  raw  " "arg" (Except.error "x")
      (Except.error "x")).2.1 ⟨Role.user, "hi"⟩ (by decide),
   (claim_C10 "m" (some "k") [] "hi" "  raw  " "arg" (Except.error "x")
      (Except.error "x")).2.2.1,
   (claim_C10 "m" (some "k") [] "hi" "  raw  " "arg" (Except.error "x")
      (Except.error "x")).2.2.2⟩

end AiCli
